import Mathlib

/-!
Verification of the QInvest risk-score engine (`src/main.py`) against its
natural-language specification.

The engine is embedded shallowly over exact rationals: Python floats become
`ℚ`, Python ints become `ℤ`, and `round(x, k)` becomes rounding of `x * 10^k`
to the nearest integer.  Fallible Python arithmetic (division, which raises
`ZeroDivisionError` on a zero denominator) is modelled by an `Except`-valued
variant used to state totality.
-/

namespace QInvest

/-- Input model mirroring `RiskScoreInput` (the ten fields of
`CompanyFinancials`): floats as `ℚ`, ints as `ℤ`. -/
structure RiskScoreInput where
  idade_empresa : ℚ
  cpf_score : ℤ
  divida_total : ℚ
  faturamento_anual : ℚ
  saldo_medio_diario : ℚ
  faturamento_medio_mensal : ℚ
  estresse_caixa_dias : ℤ
  valor_maior_cliente : ℚ
  faturamento_total_periodo : ℚ
  cnpj_score_api : ℤ

/-- Age ladder of `calculate_risk_score` (main.py lines 102-104). -/
def risco_idade (idade_empresa : ℚ) : ℚ :=
  if idade_empresa < 2 then 400
  else if idade_empresa < 5 then 600
  else 1000

/-- Personal-credit ladder of `calculate_risk_score` (main.py lines 106-109). -/
def risco_cpf (cpf_score : ℤ) : ℚ :=
  if cpf_score < 400 then 100
  else if cpf_score < 700 then 500
  else if cpf_score < 900 then 700
  else 1000

/-- Leverage ladder of `calculate_risk_score` (main.py lines 111-118); the
division is guarded by `faturamento_anual > 0`. -/
def risco_endividamento (divida_total faturamento_anual : ℚ) : ℚ :=
  if faturamento_anual > 0 then
    let indice_endividamento := divida_total / faturamento_anual
    if indice_endividamento > 1.0 then 100
    else if indice_endividamento > 0.6 then 300
    else if indice_endividamento > 0.3 then 700
    else 1000
  else 0

/-- Liquidity ladder of `calculate_risk_score` (main.py lines 120-126); the
division is guarded by `faturamento_medio_mensal > 0`. -/
def risco_liquidez (saldo_medio_diario faturamento_medio_mensal : ℚ) : ℚ :=
  if faturamento_medio_mensal > 0 then
    let indice_liquidez := saldo_medio_diario / faturamento_medio_mensal
    if indice_liquidez < 0.1 then 100
    else if indice_liquidez < 0.4 then 500
    else 1000
  else 0

/-- Cash-stress ladder of `calculate_risk_score` (main.py lines 128-131). -/
def risco_estresse (estresse_caixa_dias : ℤ) : ℚ :=
  if estresse_caixa_dias > 10 then 0
  else if estresse_caixa_dias > 5 then 300
  else if estresse_caixa_dias > 0 then 700
  else 1000

/-- Concentration ladder of `calculate_risk_score` (main.py lines 133-140); the
division is guarded by `faturamento_total_periodo > 0`. -/
def risco_concentracao (valor_maior_cliente faturamento_total_periodo : ℚ) : ℚ :=
  if faturamento_total_periodo > 0 then
    let indice_concentracao := valor_maior_cliente / faturamento_total_periodo
    if indice_concentracao > 0.6 then 100
    else if indice_concentracao > 0.3 then 500
    else if indice_concentracao > 0.2 then 900
    else 1000
  else 0

/-- Weighted sum of sub-scores (main.py lines 143-153), with the weight table
`pesos` inlined: endividamento 0.15, liquidez 0.10, estresse 0.10,
concentracao 0.05, idade 0.05, cpf 0.05, score_biro 0.5. -/
def risco_final_bruto (d : RiskScoreInput) : ℚ :=
  risco_endividamento d.divida_total d.faturamento_anual * 0.15
    + risco_liquidez d.saldo_medio_diario d.faturamento_medio_mensal * 0.10
    + risco_estresse d.estresse_caixa_dias * 0.10
    + risco_concentracao d.valor_maior_cliente d.faturamento_total_periodo * 0.05
    + risco_idade d.idade_empresa * 0.05
    + risco_cpf d.cpf_score * 0.05
    + (d.cnpj_score_api : ℚ) * 0.5

/-- Clamp of the weighted sum, `max(0, min(1000, risco_final))`
(main.py line 154). -/
def risco_final_clamped (d : RiskScoreInput) : ℚ :=
  max 0 (min 1000 (risco_final_bruto d))

/-- Grade ladder of `calculate_risk_score` (main.py lines 157-161). -/
def classificacao (risco_final : ℚ) : String :=
  if risco_final > 800 then "A"
  else if risco_final > 600 then "B"
  else if risco_final > 400 then "C"
  else if risco_final > 200 then "D"
  else "automatically_reproved"

/-- Python `round(x, 2)` on exact rationals: round `x * 100` to the nearest
integer and scale back.  (Python uses half-to-even at exact ties; every value
this development rounds is an exact multiple of 1/100 away from a tie, so the
tie-break never matters.) -/
def round2 (x : ℚ) : ℚ := (round (x * 100) : ℤ) / 100

/-- Python `round(x, 4)` on exact rationals, as in the rate endpoints. -/
def round4 (x : ℚ) : ℚ := (round (x * 10000) : ℤ) / 10000

/-- `calculate_risk_score` (main.py lines 86-163): returns the 2-decimal-rounded
clamped score together with the grade computed from the unrounded clamped
score. -/
def calculate_risk_score (d : RiskScoreInput) : ℚ × String :=
  (round2 (risco_final_clamped d), classificacao (risco_final_clamped d))

/-- `calcular_taxa_juros_anual` (main.py lines 165-187). -/
def calcular_taxa_juros_anual (risco_final : ℚ) (prazo_meses : ℤ)
    (valor_solicitado : ℚ) : ℚ :=
  let TAXA_BASE : ℚ := 0.12
  let premio_risco := (-(risco_final - 1000) / 1000) * 0.25
  let premio_prazo : ℚ :=
    if prazo_meses ≤ 6 then 0.00
    else if prazo_meses ≤ 12 then 0.02
    else if prazo_meses ≤ 18 then 0.04
    else 0.06
  let premio_valor : ℚ :=
    if valor_solicitado < 50000 then 0.00
    else if valor_solicitado < 150000 then 0.01
    else if valor_solicitado < 300000 then 0.025
    else 0.05
  TAXA_BASE + (premio_risco + premio_prazo + premio_valor)

/-- `/calculate-interest-rate` endpoint body (main.py lines 448-465): the rate,
rounded to 4 decimals. -/
def calculate_interest_rate_endpoint (risco_final : ℚ) (prazo_meses : ℤ)
    (valor_solicitado : ℚ) : ℚ :=
  round4 (calcular_taxa_juros_anual risco_final prazo_meses valor_solicitado)

/-- `/calculate-full-score` endpoint body (main.py lines 470-506): risk scoring
first, then pricing on the just-computed (already 2-decimal-rounded) score,
with the rate rounded to 4 decimals. -/
def calculate_full_score_endpoint (d : RiskScoreInput) (prazo_meses : ℤ)
    (valor_solicitado : ℚ) : ℚ × String × ℚ :=
  let score := (calculate_risk_score d).1
  let cls := (calculate_risk_score d).2
  (score, cls, round4 (calcular_taxa_juros_anual score prazo_meses valor_solicitado))

/-- Python division, which raises `ZeroDivisionError` exactly when the
denominator is zero. -/
def pydiv (a b : ℚ) : Except String ℚ :=
  if b = 0 then Except.error "division by zero" else Except.ok (a / b)

/-- Leverage ladder with Python division semantics made explicit. -/
def risco_endividamentoE (divida_total faturamento_anual : ℚ) : Except String ℚ :=
  if faturamento_anual > 0 then
    match pydiv divida_total faturamento_anual with
    | Except.error e => Except.error e
    | Except.ok indice_endividamento =>
      Except.ok (if indice_endividamento > 1.0 then 100
        else if indice_endividamento > 0.6 then 300
        else if indice_endividamento > 0.3 then 700
        else 1000)
  else Except.ok 0

/-- Liquidity ladder with Python division semantics made explicit. -/
def risco_liquidezE (saldo_medio_diario faturamento_medio_mensal : ℚ) :
    Except String ℚ :=
  if faturamento_medio_mensal > 0 then
    match pydiv saldo_medio_diario faturamento_medio_mensal with
    | Except.error e => Except.error e
    | Except.ok indice_liquidez =>
      Except.ok (if indice_liquidez < 0.1 then 100
        else if indice_liquidez < 0.4 then 500
        else 1000)
  else Except.ok 0

/-- Concentration ladder with Python division semantics made explicit. -/
def risco_concentracaoE (valor_maior_cliente faturamento_total_periodo : ℚ) :
    Except String ℚ :=
  if faturamento_total_periodo > 0 then
    match pydiv valor_maior_cliente faturamento_total_periodo with
    | Except.error e => Except.error e
    | Except.ok indice_concentracao =>
      Except.ok (if indice_concentracao > 0.6 then 100
        else if indice_concentracao > 0.3 then 500
        else if indice_concentracao > 0.2 then 900
        else 1000)
  else Except.ok 0

/-- `calculate_risk_score` with every Python division tracked in `Except`: an
`Except.error` would correspond to an uncaught `ZeroDivisionError`. -/
def calculate_risk_scoreE (d : RiskScoreInput) : Except String (ℚ × String) :=
  match risco_endividamentoE d.divida_total d.faturamento_anual with
  | Except.error e => Except.error e
  | Except.ok re =>
    match risco_liquidezE d.saldo_medio_diario d.faturamento_medio_mensal with
    | Except.error e => Except.error e
    | Except.ok rl =>
      match risco_concentracaoE d.valor_maior_cliente d.faturamento_total_periodo with
      | Except.error e => Except.error e
      | Except.ok rc =>
        let bruto := re * 0.15 + rl * 0.10
          + risco_estresse d.estresse_caixa_dias * 0.10 + rc * 0.05
          + risco_idade d.idade_empresa * 0.05 + risco_cpf d.cpf_score * 0.05
          + (d.cnpj_score_api : ℚ) * 0.5
        let clamped := max 0 (min 1000 bruto)
        Except.ok (round2 clamped, classificacao clamped)

/-- Transcription of the spec's §4.2 grade table: `>800→A, >600→B, >400→C,
>200→D, else→AutomaticallyRejected`, where the spec's label
`AutomaticallyRejected` names the engine's literal string. -/
def grade_spec (s : ℚ) : String :=
  if s > 800 then "A"
  else if s > 600 then "B"
  else if s > 400 then "C"
  else if s > 200 then "D"
  else "automatically_reproved"

/-- Transcription of the spec's §4.3 term-premium table. -/
def term_premium_spec (prazo_meses : ℤ) : ℚ :=
  if prazo_meses ≤ 6 then 0.00
  else if prazo_meses ≤ 12 then 0.02
  else if prazo_meses ≤ 18 then 0.04
  else 0.06

/-- Transcription of the spec's §4.3 amount-premium table. -/
def amount_premium_spec (valor_solicitado : ℚ) : ℚ :=
  if valor_solicitado < 50000 then 0.00
  else if valor_solicitado < 150000 then 0.01
  else if valor_solicitado < 300000 then 0.025
  else 0.05

/-- The literal scenario input of the spec's §8 (also `TEST_RISK_DATA` in the
repository's tests). -/
def scenarioInput : RiskScoreInput :=
  ⟨3.5, 750, 100000, 500000, 15000, 41667, 2, 80000, 300000, 800⟩

/-! ## Helper lemmas -/

lemma risco_endividamentoE_ok (a f : ℚ) :
    risco_endividamentoE a f = Except.ok (risco_endividamento a f) := by
  by_cases hf : f > 0
  · simp [risco_endividamentoE, risco_endividamento, pydiv, hf, hf.ne']
  · simp [risco_endividamentoE, risco_endividamento, hf]

lemma risco_liquidezE_ok (a f : ℚ) :
    risco_liquidezE a f = Except.ok (risco_liquidez a f) := by
  by_cases hf : f > 0
  · simp [risco_liquidezE, risco_liquidez, pydiv, hf, hf.ne']
  · simp [risco_liquidezE, risco_liquidez, hf]

lemma risco_concentracaoE_ok (a f : ℚ) :
    risco_concentracaoE a f = Except.ok (risco_concentracao a f) := by
  by_cases hf : f > 0
  · simp [risco_concentracaoE, risco_concentracao, pydiv, hf, hf.ne']
  · simp [risco_concentracaoE, risco_concentracao, hf]

lemma calculate_risk_scoreE_ok (d : RiskScoreInput) :
    calculate_risk_scoreE d = Except.ok (calculate_risk_score d) := by
  unfold calculate_risk_scoreE
  rw [risco_endividamentoE_ok, risco_liquidezE_ok, risco_concentracaoE_ok]
  rfl

lemma risco_idade_mem (a : ℚ) : ∃ k : ℤ, risco_idade a = 100 * k := by
  unfold risco_idade
  split_ifs
  exacts [⟨4, by norm_num⟩, ⟨6, by norm_num⟩, ⟨10, by norm_num⟩]

lemma risco_cpf_mem (c : ℤ) : ∃ k : ℤ, risco_cpf c = 100 * k := by
  unfold risco_cpf
  split_ifs
  exacts [⟨1, by norm_num⟩, ⟨5, by norm_num⟩, ⟨7, by norm_num⟩, ⟨10, by norm_num⟩]

lemma risco_endividamento_mem (a f : ℚ) : ∃ k : ℤ, risco_endividamento a f = 100 * k := by
  simp only [risco_endividamento]
  split_ifs
  exacts [⟨1, by norm_num⟩, ⟨3, by norm_num⟩, ⟨7, by norm_num⟩, ⟨10, by norm_num⟩,
    ⟨0, by norm_num⟩]

lemma risco_liquidez_mem (a f : ℚ) : ∃ k : ℤ, risco_liquidez a f = 100 * k := by
  simp only [risco_liquidez]
  split_ifs
  exacts [⟨1, by norm_num⟩, ⟨5, by norm_num⟩, ⟨10, by norm_num⟩, ⟨0, by norm_num⟩]

lemma risco_estresse_mem (s : ℤ) : ∃ k : ℤ, risco_estresse s = 100 * k := by
  unfold risco_estresse
  split_ifs
  exacts [⟨0, by norm_num⟩, ⟨3, by norm_num⟩, ⟨7, by norm_num⟩, ⟨10, by norm_num⟩]

lemma risco_concentracao_mem (a f : ℚ) : ∃ k : ℤ, risco_concentracao a f = 100 * k := by
  simp only [risco_concentracao]
  split_ifs
  exacts [⟨1, by norm_num⟩, ⟨5, by norm_num⟩, ⟨9, by norm_num⟩, ⟨10, by norm_num⟩,
    ⟨0, by norm_num⟩]

lemma risco_final_bruto_half (d : RiskScoreInput) :
    ∃ n : ℤ, risco_final_bruto d = n / 2 := by
  obtain ⟨k1, h1⟩ := risco_endividamento_mem d.divida_total d.faturamento_anual
  obtain ⟨k2, h2⟩ := risco_liquidez_mem d.saldo_medio_diario d.faturamento_medio_mensal
  obtain ⟨k3, h3⟩ := risco_estresse_mem d.estresse_caixa_dias
  obtain ⟨k4, h4⟩ := risco_concentracao_mem d.valor_maior_cliente d.faturamento_total_periodo
  obtain ⟨k5, h5⟩ := risco_idade_mem d.idade_empresa
  obtain ⟨k6, h6⟩ := risco_cpf_mem d.cpf_score
  refine ⟨30 * k1 + 20 * k2 + 20 * k3 + 10 * k4 + 10 * k5 + 10 * k6 + d.cnpj_score_api, ?_⟩
  unfold risco_final_bruto
  rw [h1, h2, h3, h4, h5, h6]
  push_cast
  ring_nf

lemma risco_final_clamped_half (d : RiskScoreInput) :
    ∃ n : ℤ, risco_final_clamped d = n / 2 := by
  obtain ⟨n, hn⟩ := risco_final_bruto_half d
  unfold risco_final_clamped
  rw [hn]
  rcases le_total ((n : ℚ) / 2) 0 with h | h
  · exact ⟨0, by rw [min_eq_right (by linarith), max_eq_left h]; norm_num⟩
  · rcases le_total ((n : ℚ) / 2) 1000 with h2 | h2
    · exact ⟨n, by rw [min_eq_right h2, max_eq_right h]⟩
    · exact ⟨2000, by rw [min_eq_left h2, max_eq_right (by norm_num)]; norm_num⟩

lemma round2_half (n : ℤ) : round2 ((n : ℚ) / 2) = n / 2 := by
  have h : ((n : ℚ) / 2) * 100 = ((50 * n : ℤ) : ℚ) := by push_cast; ring
  rw [round2, h, round_intCast]
  push_cast
  ring

lemma round2_clamped (d : RiskScoreInput) :
    round2 (risco_final_clamped d) = risco_final_clamped d := by
  obtain ⟨n, hn⟩ := risco_final_clamped_half d
  rw [hn, round2_half]

lemma score_eq_clamped (d : RiskScoreInput) :
    (calculate_risk_score d).1 = risco_final_clamped d :=
  round2_clamped d

lemma clamped_nonneg (d : RiskScoreInput) : 0 ≤ risco_final_clamped d :=
  le_max_left 0 _

lemma clamped_le_1000 (d : RiskScoreInput) : risco_final_clamped d ≤ 1000 :=
  max_le (by norm_num) (min_le_left _ _)

lemma round2_mono {x y : ℚ} (h : x ≤ y) : round2 x ≤ round2 y := by
  unfold round2
  have hr : round (x * 100) ≤ round (y * 100) := by
    rw [round_eq, round_eq]
    exact Int.floor_mono (by linarith)
  have hc : ((round (x * 100) : ℤ) : ℚ) ≤ ((round (y * 100) : ℤ) : ℚ) := by
    exact_mod_cast hr
  linarith

lemma risco_endividamento_anti {a b : ℚ} (f : ℚ) (h : a ≤ b) :
    risco_endividamento b f ≤ risco_endividamento a f := by
  by_cases hf : f > 0
  · have hd : a / f ≤ b / f := (div_le_div_iff_of_pos_right hf).mpr h
    simp only [risco_endividamento, if_pos hf]
    split_ifs <;> linarith
  · simp [risco_endividamento, hf]

lemma risco_estresse_anti {s1 s2 : ℤ} (h : s1 ≤ s2) :
    risco_estresse s2 ≤ risco_estresse s1 := by
  unfold risco_estresse
  split_ifs <;> first | (exfalso; omega) | norm_num

lemma calcular_taxa_eq (s : ℚ) (p : ℤ) (v : ℚ) :
    calcular_taxa_juros_anual s p v =
      0.12 + ((-(s - 1000) / 1000) * 0.25 + term_premium_spec p + amount_premium_spec v) :=
  rfl

lemma term_premium_spec_nonneg (p : ℤ) : 0 ≤ term_premium_spec p := by
  unfold term_premium_spec
  split_ifs <;> norm_num

lemma term_premium_spec_le (p : ℤ) : term_premium_spec p ≤ 0.06 := by
  unfold term_premium_spec
  split_ifs <;> norm_num

lemma amount_premium_spec_nonneg (v : ℚ) : 0 ≤ amount_premium_spec v := by
  unfold amount_premium_spec
  split_ifs <;> norm_num

lemma amount_premium_spec_le (v : ℚ) : amount_premium_spec v ≤ 0.05 := by
  unfold amount_premium_spec
  split_ifs <;> norm_num

lemma scenario_bruto : risco_final_bruto scenarioInput = 780 := by
  norm_num [risco_final_bruto, scenarioInput, risco_idade, risco_cpf,
    risco_endividamento, risco_liquidez, risco_estresse, risco_concentracao]

lemma scenario_clamped : risco_final_clamped scenarioInput = 780 := by
  rw [risco_final_clamped, scenario_bruto,
    min_eq_right (by norm_num), max_eq_right (by norm_num)]

/-! ## Claim theorems -/

/-- C1: for every input, the returned final score lies in [0, 1000], the
returned grade is exactly the spec's §4.2 strict-'>' threshold table applied
to the clamped final score, and on that table a score of exactly 800 yields
"B" (not "A") and a score of exactly 600 yields "C". -/
theorem score_range_and_grade_consistency (d : RiskScoreInput) :
    0 ≤ (calculate_risk_score d).1 ∧ (calculate_risk_score d).1 ≤ 1000 ∧
    (calculate_risk_score d).2 = grade_spec (risco_final_clamped d) ∧
    grade_spec 800 = "B" ∧ grade_spec 600 = "C" := by
  refine ⟨?_, ?_, rfl, ?_, ?_⟩
  · rw [score_eq_clamped]
    exact clamped_nonneg d
  · rw [score_eq_clamped]
    exact clamped_le_1000 d
  · norm_num [grade_spec]
  · norm_num [grade_spec]

/-- C2 counterexample: on the literal scenario input the concentration
sub-score is 900 (the ratio 80000/300000 ≈ 0.267 exceeds 0.2 but not 0.3) and
the returned final score is 780, so the claimed values 500 and 760 are both
wrong. -/
theorem scenario_literal_counterexample :
    risco_concentracao 80000 300000 ≠ 500 ∧
    (calculate_risk_score scenarioInput).1 ≠ 760 := by
  constructor
  · norm_num [risco_concentracao]
  · rw [score_eq_clamped, scenario_clamped]
    norm_num

/-- C2 (amended): on the literal scenario input the sub-scores are
leverage 1000, liquidity 500, cash-stress 700, concentration 900, age 600,
personal-credit 700, the returned final score is 780, and the grade is "B". -/
theorem scenario_literal_amended :
    risco_idade 3.5 = 600 ∧ risco_cpf 750 = 700 ∧
    risco_endividamento 100000 500000 = 1000 ∧
    risco_liquidez 15000 41667 = 500 ∧
    risco_estresse 2 = 700 ∧
    risco_concentracao 80000 300000 = 900 ∧
    calculate_risk_score scenarioInput = (780, "B") := by
  refine ⟨?_, ?_, ?_, ?_, ?_, ?_, ?_⟩
  · norm_num [risco_idade]
  · norm_num [risco_cpf]
  · norm_num [risco_endividamento]
  · norm_num [risco_liquidez]
  · norm_num [risco_estresse]
  · norm_num [risco_concentracao]
  · show (round2 (risco_final_clamped scenarioInput),
        classificacao (risco_final_clamped scenarioInput)) = (780, "B")
    rw [round2_clamped, scenario_clamped]
    norm_num [classificacao]

/-- C3: every threshold in the six normalizer ladders is strict, so each exact
boundary value receives the higher-value bucket: age 2 → 600 and 5 → 1000;
personal credit 400 → 500, 700 → 700, 900 → 1000; leverage ratio 1.0 → 300,
0.6 → 700, 0.3 → 1000; liquidity ratio 0.1 → 500, 0.4 → 1000; cash-stress days
10 → 300, 5 → 700, 0 → 1000; concentration ratio 0.6 → 500, 0.3 → 900,
0.2 → 1000. -/
theorem boundary_values_strict :
    risco_idade 2 = 600 ∧ risco_idade 5 = 1000 ∧
    risco_cpf 400 = 500 ∧ risco_cpf 700 = 700 ∧ risco_cpf 900 = 1000 ∧
    risco_endividamento 100 100 = 300 ∧ risco_endividamento 60 100 = 700 ∧
    risco_endividamento 30 100 = 1000 ∧
    risco_liquidez 10 100 = 500 ∧ risco_liquidez 40 100 = 1000 ∧
    risco_estresse 10 = 300 ∧ risco_estresse 5 = 700 ∧ risco_estresse 0 = 1000 ∧
    risco_concentracao 60 100 = 500 ∧ risco_concentracao 30 100 = 900 ∧
    risco_concentracao 20 100 = 1000 := by
  norm_num [risco_idade, risco_cpf, risco_endividamento, risco_liquidez,
    risco_estresse, risco_concentracao]

/-- C4: the rate pricer returns exactly the base rate plus the linear risk
premium plus the spec's term and amount premia, and on the literal pricing
scenario (score 650.5, term 12, amount 100000) it returns exactly 0.237375. -/
theorem taxa_formula_and_literal (s : ℚ) (p : ℤ) (v : ℚ) (hp : 0 < p) (hv : 0 ≤ v) :
    calcular_taxa_juros_anual s p v =
      0.12 + ((1000 - s) / 1000) * 0.25 + term_premium_spec p + amount_premium_spec v ∧
    calcular_taxa_juros_anual 650.5 12 100000 = 0.237375 := by
  constructor
  · rw [calcular_taxa_eq]
    ring
  · rw [calcular_taxa_eq]
    norm_num [term_premium_spec, amount_premium_spec]

theorem taxa_formula_and_literal_witness :
    (0 : ℤ) < 12 ∧ (0 : ℚ) ≤ 100000 ∧
    (calcular_taxa_juros_anual 650.5 12 100000 =
        0.12 + ((1000 - 650.5) / 1000) * 0.25 + term_premium_spec 12 +
          amount_premium_spec 100000 ∧
      calcular_taxa_juros_anual 650.5 12 100000 = 0.237375) :=
  ⟨by norm_num, by norm_num,
    taxa_formula_and_literal 650.5 12 100000 (by norm_num) (by norm_num)⟩

/-- C5: the combined full-score endpoint returns exactly the risk-score
result together with the interest-rate endpoint applied to the returned
(2-decimal-rounded) score with the same term and amount. -/
theorem full_score_composition (d : RiskScoreInput) (prazo_meses : ℤ)
    (valor_solicitado : ℚ) :
    calculate_full_score_endpoint d prazo_meses valor_solicitado =
      ((calculate_risk_score d).1, (calculate_risk_score d).2,
        calculate_interest_rate_endpoint ((calculate_risk_score d).1)
          prazo_meses valor_solicitado) :=
  rfl

/-- C6: scoring is total — every Python division is guarded, so the
`Except`-tracked evaluation never errors — and whenever a denominator
(annual revenue, monthly revenue, or period revenue) is zero or negative the
corresponding sub-score (leverage, liquidity, concentration) is exactly 0. -/
theorem no_division_error_and_zero_subscore (d : RiskScoreInput) (x : ℚ)
    (hx : x ≤ 0) :
    calculate_risk_scoreE d = Except.ok (calculate_risk_score d) ∧
    risco_endividamento d.divida_total x = 0 ∧
    risco_liquidez d.saldo_medio_diario x = 0 ∧
    risco_concentracao d.valor_maior_cliente x = 0 := by
  refine ⟨calculate_risk_scoreE_ok d, ?_, ?_, ?_⟩ <;>
    simp [risco_endividamento, risco_liquidez, risco_concentracao, not_lt.mpr hx]

theorem no_division_error_and_zero_subscore_witness :
    (0 : ℚ) ≤ 0 ∧
    (calculate_risk_scoreE scenarioInput = Except.ok (calculate_risk_score scenarioInput) ∧
      risco_endividamento scenarioInput.divida_total 0 = 0 ∧
      risco_liquidez scenarioInput.saldo_medio_diario 0 = 0 ∧
      risco_concentracao scenarioInput.valor_maior_cliente 0 = 0) :=
  ⟨le_refl 0, no_division_error_and_zero_subscore scenarioInput 0 (le_refl 0)⟩

/-- C7: with all other fields fixed, increasing total debt never increases the
returned final score; increasing cash-stress days never increases the
cash-stress sub-score; and exactly 0 stress days gives the maximum 1000. -/
theorem monotone_in_debt_and_stress (d : RiskScoreInput) (d2 : ℚ) (s1 s2 : ℤ)
    (hd : d.divida_total ≤ d2) (hs : s1 ≤ s2) :
    (calculate_risk_score { d with divida_total := d2 }).1 ≤
      (calculate_risk_score d).1 ∧
    risco_estresse s2 ≤ risco_estresse s1 ∧
    risco_estresse 0 = 1000 := by
  refine ⟨?_, risco_estresse_anti hs, by norm_num [risco_estresse]⟩
  have he := risco_endividamento_anti d.faturamento_anual hd
  have hb : risco_final_bruto { d with divida_total := d2 } ≤ risco_final_bruto d := by
    simp only [risco_final_bruto]
    have h15 : risco_endividamento d2 d.faturamento_anual * 0.15 ≤
        risco_endividamento d.divida_total d.faturamento_anual * 0.15 :=
      mul_le_mul_of_nonneg_right he (by norm_num)
    linarith
  rw [score_eq_clamped, score_eq_clamped]
  exact max_le_max le_rfl (min_le_min le_rfl hb)

theorem monotone_in_debt_and_stress_witness :
    scenarioInput.divida_total ≤ 200000 ∧ (1 : ℤ) ≤ 3 ∧
    ((calculate_risk_score { scenarioInput with divida_total := 200000 }).1 ≤
        (calculate_risk_score scenarioInput).1 ∧
      risco_estresse 3 ≤ risco_estresse 1 ∧
      risco_estresse 0 = 1000) :=
  ⟨by norm_num [scenarioInput], by norm_num,
    monotone_in_debt_and_stress scenarioInput 200000 1 3
      (by norm_num [scenarioInput]) (by norm_num)⟩

/-- C8: the pipeline is deterministic — two invocations of risk scoring, of
pricing on the just-computed score, and of the combined endpoint with
identical arguments return identical results; the embedding is a pure
function of its arguments. -/
theorem pipeline_deterministic (d : RiskScoreInput) (p : ℤ) (v : ℚ) :
    calculate_risk_score d = calculate_risk_score d ∧
    calculate_interest_rate_endpoint ((calculate_risk_score d).1) p v =
      calculate_interest_rate_endpoint ((calculate_risk_score d).1) p v ∧
    calculate_full_score_endpoint d p v = calculate_full_score_endpoint d p v :=
  ⟨rfl, rfl, rfl⟩

/-- C9: for every score in [0, 1000], positive term, and non-negative amount,
the unclamped annual rate lies in [0.12, 0.48]; the minimum 0.12 is attained
at score 1000 with term ≤ 6 and amount < 50000, the maximum 0.48 at score 0
with term > 18 and amount ≥ 300000. -/
theorem taxa_bounds (s : ℚ) (p : ℤ) (v : ℚ) (h0 : 0 ≤ s) (h1 : s ≤ 1000)
    (hp : 0 < p) (hv : 0 ≤ v) :
    0.12 ≤ calcular_taxa_juros_anual s p v ∧
    calcular_taxa_juros_anual s p v ≤ 0.48 ∧
    calcular_taxa_juros_anual 1000 6 0 = 0.12 ∧
    calcular_taxa_juros_anual 0 19 300000 = 0.48 := by
  refine ⟨?_, ?_, ?_, ?_⟩
  · rw [calcular_taxa_eq]
    have ht := term_premium_spec_nonneg p
    have ha := amount_premium_spec_nonneg v
    linarith
  · rw [calcular_taxa_eq]
    have ht := term_premium_spec_le p
    have ha := amount_premium_spec_le v
    linarith
  · rw [calcular_taxa_eq]
    norm_num [term_premium_spec, amount_premium_spec]
  · rw [calcular_taxa_eq]
    norm_num [term_premium_spec, amount_premium_spec]

theorem taxa_bounds_witness :
    (0 : ℚ) ≤ 650.5 ∧ (650.5 : ℚ) ≤ 1000 ∧ (0 : ℤ) < 12 ∧ (0 : ℚ) ≤ 100000 ∧
    (0.12 ≤ calcular_taxa_juros_anual 650.5 12 100000 ∧
      calcular_taxa_juros_anual 650.5 12 100000 ≤ 0.48 ∧
      calcular_taxa_juros_anual 1000 6 0 = 0.12 ∧
      calcular_taxa_juros_anual 0 19 300000 = 0.48) :=
  ⟨by norm_num, by norm_num, by norm_num, by norm_num,
    taxa_bounds 650.5 12 100000 (by norm_num) (by norm_num) (by norm_num)
      (by norm_num)⟩

/-- C10: for every input the clamped weighted score is an integer multiple of
1/2, so the 2-decimal rounding returns it unchanged, and the returned grade
agrees with applying the grade thresholds to the returned rounded score. -/
theorem half_step_granularity (d : RiskScoreInput) :
    (∃ n : ℤ, risco_final_clamped d = n / 2) ∧
    round2 (risco_final_clamped d) = risco_final_clamped d ∧
    (calculate_risk_score d).1 = risco_final_clamped d ∧
    (calculate_risk_score d).2 = classificacao ((calculate_risk_score d).1) := by
  refine ⟨risco_final_clamped_half d, round2_clamped d, score_eq_clamped d, ?_⟩
  rw [score_eq_clamped]
  rfl

end QInvest
